import Mathlib

/-!
Verification development for the lambdalabs terraform provider
(internal/provider): a shallow embedding of the two resource controllers
(instance, SSH key) and proofs about their lifecycle operations.

Modelling conventions:
- terraform-plugin-framework `types.String` / `types.List` are tri-state
  values (null, unknown, known value); `ValueString` on a non-value returns
  the empty string and `ElementsAs` on a non-value leaves the target slice
  nil, exactly as in Go.
- Each lifecycle operation is a pure function of the prior state record and
  the outcome of its single HTTP exchange. The raw response body is
  represented by the results of decoding it under each JSON envelope the Go
  code may apply to it (`Except String α`: `.error e` when `json.Decode`
  fails with message e, `.ok v` when it yields v). Go decoding ignores
  unknown fields, so one body can decode successfully under several
  envelopes.
- `resp.Diagnostics.AddError(title, msg)` followed by return is an `error
  title msg` outcome; `resp.State.RemoveResource` is `removed`;
  `resp.State.Set` of the final record is `success`.
- A runtime panic of the Go code (nil pointer dereference) is a distinct
  `panic` outcome; no state is written and no request is issued.
-/

/-- Tri-state terraform string value (types.String). -/
inductive TString where
  | null
  | unknown
  | value (s : String)
  deriving DecidableEq

/-- types.String.IsNull. -/
def TString.IsNull : TString → Bool
  | .null => true
  | _ => false

/-- types.String.ValueString: the known value, or the empty string for
null and unknown values, as in the Go framework. -/
def TString.ValueString : TString → String
  | .value s => s
  | _ => ""

/-- Tri-state terraform list of strings (types.List with string elements). -/
inductive TList where
  | null
  | unknown
  | value (elems : List String)
  deriving DecidableEq

/-- types.List.IsNull. -/
def TList.IsNull : TList → Bool
  | .null => true
  | _ => false

/-- types.List.ElementsAs into a nil string slice, error ignored as in the
source: the target stays nil (here: the empty list) unless the list holds a
known value. -/
def TList.ElementsAs : TList → List String
  | .value xs => xs
  | _ => []

/-- InstanceResourceModel: the tfsdk-bound record of the instance resource. -/
structure InstanceResourceModel where
  RegionName : TString
  InstanceTypeName : TString
  SshKeyNames : TList
  FileSystemNames : TList
  Name : TString
  IP : TString
  Status : TString
  Id : TString
  deriving DecidableEq

/-- InstanceCreateAPIRequest: body of POST instance-operations/launch. -/
structure InstanceCreateAPIRequest where
  RegionName : String
  InstanceTypeName : String
  SSHKeyNames : List String
  FileSystemNames : List String
  Quantity : Nat
  Name : Option String
  deriving DecidableEq

/-- InstanceAPIErrorResponse.Error: the decoded error envelope carried by
non-success responses. -/
structure APIError where
  code : String
  message : String
  suggestion : Option String
  deriving DecidableEq

/-- Region sub-object of an Instance as returned by the API. -/
structure InstanceRegion where
  name : String
  description : String
  deriving DecidableEq

/-- InstanceType sub-object of an Instance as returned by the API (the
untyped specs field is not read by the provider and is omitted). -/
structure InstanceTypeInfo where
  name : String
  description : String
  priceCentsHourly : Int
  deriving DecidableEq

/-- Instance: the record returned by GET instances/id. -/
structure Instance where
  id : String
  name : String
  ip : String
  status : String
  sshKeyNames : List String
  fileSystemNames : List String
  region : InstanceRegion
  instanceType : InstanceTypeInfo
  hostname : String
  jupyterToken : String
  jupyterUrl : String
  deriving DecidableEq

/-- Outcome of the single HTTP exchange of one lifecycle operation.
`transportError` is MakeAPICall returning a non-nil Go error; otherwise the
response carries its status code, the result of decoding its body as the
error envelope, and the result of decoding it as the expected success
envelope of type ok. -/
inductive Http (ok : Type) where
  | transportError (msg : String)
  | response (status : Nat) (errBody : Except String APIError) (okBody : Except String ok)

/-- Result outcome of instance Create: a Go nil-pointer panic, a diagnostics
error (title, message), or the state record written on success. -/
inductive InstanceCreateOutcome where
  | panic
  | error (title msg : String)
  | success (state : InstanceResourceModel)
  deriving DecidableEq

/-- Result of instance Create: whether a provisioning request was issued
(and which), and the outcome. -/
structure InstanceCreateResult where
  request : Option InstanceCreateAPIRequest
  outcome : InstanceCreateOutcome
  deriving DecidableEq

/-- The provisioning request instance Create builds from the plan record
(lines 207 to 214 of instance resource Create). -/
def InstanceResource.createRequest (data : InstanceResourceModel) : InstanceCreateAPIRequest where
  RegionName := data.RegionName.ValueString
  InstanceTypeName := data.InstanceTypeName.ValueString
  SSHKeyNames := data.SshKeyNames.ElementsAs
  FileSystemNames := if !data.FileSystemNames.IsNull then data.FileSystemNames.ElementsAs else []
  Quantity := 1
  Name := none

/-- InstanceResource.Create. The source declares a nil string pointer
(var name *string) and, when the plan name is not null, writes through it
(*name = data.Name.ValueString()): a nil-pointer dereference panic before
MakeAPICall is reached. Otherwise the launch request is built and issued
unconditionally: there is no local validation of the SSH key name count.
The success envelope is the instance id list of InstanceCreateAPIResponse. -/
def InstanceResource.Create (data : InstanceResourceModel)
    (http : Http (List String)) : InstanceCreateResult :=
  if !data.Name.IsNull then
    { request := none, outcome := .panic }
  else
    { request := some (InstanceResource.createRequest data),
      outcome :=
        match http with
        | .transportError msg =>
            .error "Client Error" ("Unable to create example, got error: " ++ msg)
        | .response status errBody okBody =>
            if status ≠ 200 then
              match errBody with
              | .error e => .error "json error" e
              | .ok errData => .error "client error" errData.message
            else
              match okBody with
              | .error e => .error "json error" e
              | .ok ids =>
                  if ids.length ≠ 1 then
                    .error "resp error" ("expected 1 response got " ++ toString ids.length)
                  else
                    .success { data with
                      IP := .null
                      Status := .null
                      Id := .value (ids.headD "") } }

/-- Result of a Read: a diagnostics error, removal of the local record
(resp.State.RemoveResource), or the refreshed record written to state. -/
inductive ReadOutcome (M : Type) where
  | error (title msg : String)
  | removed
  | success (state : M)
  deriving DecidableEq

/-- InstanceResource.Read. Fetches GET instances/id. A 404 status removes
the local record before any body is decoded. On 200 the decoded Instance
refreshes ssh key names, instance type name and region name; the source
lines that would copy ip and status from the response are commented out, so
IP and Status keep their prior state values. -/
def InstanceResource.Read (data : InstanceResourceModel)
    (http : Http Instance) : ReadOutcome InstanceResourceModel :=
  match http with
  | .transportError msg => .error "resp error" msg
  | .response status errBody okBody =>
      if status = 404 then .removed
      else if status ≠ 200 then
        match errBody with
        | .error e => .error "json error" e
        | .ok errData => .error "client error" errData.message
      else
        match okBody with
        | .error e => .error "json error" e
        | .ok inst =>
            .success { data with
              SshKeyNames := .value inst.sshKeyNames
              InstanceTypeName := .value inst.instanceType.name
              RegionName := .value inst.region.name }

/-- Result of Update or of SSH key Create: a diagnostics error or the state
record written on success. -/
inductive OpOutcome (M : Type) where
  | error (title msg : String)
  | success (state : M)
  deriving DecidableEq

/-- The Go struct types a terraform plan can be decoded into by the methods
of the instance resource. The source of Update names InstanceResource (the
resource struct holding only the api key, with no tfsdk-tagged fields)
where every sibling method names InstanceResourceModel. -/
inductive InstancePlanTarget where
  | instanceResourceModel
  | instanceResource
  deriving DecidableEq

/-- req.Plan.Get of the framework: decodes the planned object into the
target Go struct by tfsdk-tag reflection. Decoding into
InstanceResourceModel yields the record; decoding into InstanceResource
fails with a conversion-error diagnostic, because the instance schema
defines eight attributes and InstanceResource has no tfsdk-tagged fields. -/
def instancePlanGet : InstancePlanTarget → InstanceResourceModel →
    Except String InstanceResourceModel
  | .instanceResourceModel, plan => .ok plan
  | .instanceResource, _ =>
      .error "mismatch between struct and object: the object defines fields not found in the struct"

/-- InstanceResource.Update. Issues no network call (the client code is
commented out in the source). Reads the plan into a pointer to
InstanceResource, not InstanceResourceModel, so Plan.Get always fails and
the method returns with an error diagnostic, never reaching State.Set. -/
def InstanceResource.Update (plan : InstanceResourceModel) :
    OpOutcome InstanceResourceModel :=
  match instancePlanGet .instanceResource plan with
  | .error e => .error "Value Conversion Error" e
  | .ok d => .success d

/-- Result of a Delete: a diagnostics error, or success (no state write). -/
inductive DeleteOutcome where
  | error (title msg : String)
  | success
  deriving DecidableEq

/-- InstanceResource.Delete. Issues POST instance-operations/terminate with
the single stored id. A status other than 200 and 404 decodes the error
envelope and fails; on 200 or 404 the method still decodes the body as
InstanceDeleteApiResponse (terminated instance list) and reports a json
error when that decode fails. -/
def InstanceResource.Delete (_data : InstanceResourceModel)
    (http : Http (List Instance)) : DeleteOutcome :=
  match http with
  | .transportError msg => .error "resp error" msg
  | .response status errBody okBody =>
      if status ≠ 200 ∧ status ≠ 404 then
        match errBody with
        | .error e => .error "json error" e
        | .ok errData => .error "client error" errData.message
      else
        match okBody with
        | .error e => .error "json error" e
        | .ok _ => .success

/-- SSHKeyResourceModel: the tfsdk-bound record of the SSH key resource. -/
structure SSHKeyResourceModel where
  Name : TString
  PublicKey : TString
  PrivateKey : TString
  Id : TString
  deriving DecidableEq

/-- SSHKeyCreateRequest: body of POST ssh-keys. PublicKey is omitempty and
stays at its zero value (empty string) when the plan public key is null. -/
structure SSHKeyCreateRequest where
  Name : String
  PublicKey : String
  deriving DecidableEq

/-- SSHKey: one record of the ssh-keys list returned by the API. -/
structure SSHKey where
  ID : String
  Name : String
  PublicKey : String
  PrivateKey : String
  deriving DecidableEq

/-- Result of SSH key Create: whether the request was issued (and which),
and the outcome. -/
structure SSHKeyCreateResult where
  request : Option SSHKeyCreateRequest
  outcome : OpOutcome SSHKeyResourceModel
  deriving DecidableEq

/-- The creation request SSH key Create builds from the plan record. -/
def SSHKeyResource.createRequest (data : SSHKeyResourceModel) : SSHKeyCreateRequest where
  Name := data.Name.ValueString
  PublicKey := if !data.PublicKey.IsNull then data.PublicKey.ValueString else ""

/-- SSHKeyResource.Create. Issues POST ssh-keys; on 200 the decoded SSHKey
binds id and name, and the private key field is set to the returned
material when it is a non-empty string and to null otherwise. -/
def SSHKeyResource.Create (data : SSHKeyResourceModel)
    (http : Http SSHKey) : SSHKeyCreateResult :=
  { request := some (SSHKeyResource.createRequest data),
    outcome :=
      match http with
      | .transportError msg =>
          .error "Client Error" ("Unable to create example, got error: " ++ msg)
      | .response status errBody okBody =>
          if status ≠ 200 then
            match errBody with
            | .error e => .error "json error" e
            | .ok errData => .error "client error" errData.message
          else
            match okBody with
            | .error e => .error "json error" e
            | .ok k =>
                .success { data with
                  Id := .value k.ID
                  Name := .value k.Name
                  PrivateKey := if k.PrivateKey ≠ "" then .value k.PrivateKey else .null } }

/-- findKey: linear scan of the returned key list, first record whose ID
equals the target id, nil (none) when absent. -/
def findKey : List SSHKey → String → Option SSHKey
  | [], _ => none
  | k :: ks, i => if k.ID = i then some k else findKey ks i

/-- SSHKeyResource.Read. Lists GET ssh-keys and scans for the stored id
with findKey; absence removes the local record. A found key refreshes id,
name and public key, and sets the private key to the returned material when
non-empty and to null otherwise. -/
def SSHKeyResource.Read (data : SSHKeyResourceModel)
    (http : Http (List SSHKey)) : ReadOutcome SSHKeyResourceModel :=
  match http with
  | .transportError msg =>
      .error "Client Error" ("Unable to create example, got error: " ++ msg)
  | .response status errBody okBody =>
      if status ≠ 200 then
        match errBody with
        | .error e => .error "json error" e
        | .ok errData => .error "client error" errData.message
      else
        match okBody with
        | .error e => .error "json error" e
        | .ok keys =>
            match findKey keys data.Id.ValueString with
            | none => .removed
            | some k =>
                .success { data with
                  Id := .value k.ID
                  Name := .value k.Name
                  PublicKey := .value k.PublicKey
                  PrivateKey := if k.PrivateKey ≠ "" then .value k.PrivateKey else .null }

/-- SSHKeyResource.Update. Issues no network call; reads the plan into
SSHKeyResourceModel (correctly, unlike the instance Update) and re-persists
it unchanged. -/
def SSHKeyResource.Update (plan : SSHKeyResourceModel) :
    OpOutcome SSHKeyResourceModel :=
  .success plan

/-- SSHKeyResource.Delete. Issues DELETE ssh-keys/id. Any status other
than 200, including 404, decodes the error envelope and reports a client
error; only 200 is success. The body is not decoded on 200. -/
def SSHKeyResource.Delete (_data : SSHKeyResourceModel)
    (http : Http Unit) : DeleteOutcome :=
  match http with
  | .transportError msg =>
      .error "Client Error" ("Unable to create example, got error: " ++ msg)
  | .response status errBody _ =>
      if status ≠ 200 then
        match errBody with
        | .error e => .error "json error" e
        | .ok errData => .error "client error" errData.message
      else .success

/-- Concrete instance plan of the spec scenario: one SSH key, no name. -/
def exampleInstancePlan : InstanceResourceModel where
  RegionName := .value "us-west-1"
  InstanceTypeName := .value "gpu_1x_a10"
  SshKeyNames := .value ["laptop"]
  FileSystemNames := .null
  Name := .null
  IP := .unknown
  Status := .unknown
  Id := .unknown

/-- Concrete instance plan with an empty SSH key name list and unset name. -/
def zeroKeyPlan : InstanceResourceModel where
  RegionName := .value "us-west-1"
  InstanceTypeName := .value "gpu_1x_a10"
  SshKeyNames := .value []
  FileSystemNames := .null
  Name := .null
  IP := .unknown
  Status := .unknown
  Id := .unknown

/-- Concrete instance plan with two SSH key names and unset name. -/
def twoKeyPlan : InstanceResourceModel where
  RegionName := .value "us-west-1"
  InstanceTypeName := .value "gpu_1x_a10"
  SshKeyNames := .value ["laptop", "desktop"]
  FileSystemNames := .null
  Name := .null
  IP := .unknown
  Status := .unknown
  Id := .unknown

/-- Concrete instance plan whose optional display name is set. -/
def namedPlan : InstanceResourceModel where
  RegionName := .value "us-west-1"
  InstanceTypeName := .value "gpu_1x_a10"
  SshKeyNames := .value ["laptop"]
  FileSystemNames := .null
  Name := .value "box"
  IP := .unknown
  Status := .unknown
  Id := .unknown

/-- Concrete prior instance state holding an already observed ip and
status. -/
def staleInstanceState : InstanceResourceModel where
  RegionName := .value "us-west-1"
  InstanceTypeName := .value "gpu_1x_a10"
  SshKeyNames := .value ["laptop"]
  FileSystemNames := .null
  Name := .null
  IP := .value "1.2.3.4"
  Status := .value "active"
  Id := .value "i-123"

/-- Concrete remote instance whose ip and status differ from the prior
state in staleInstanceState while the identity fields agree. -/
def remoteInstance : Instance where
  id := "i-123"
  name := ""
  ip := "5.6.7.8"
  status := "booting"
  sshKeyNames := ["laptop"]
  fileSystemNames := []
  region := { name := "us-west-1", description := "" }
  instanceType := { name := "gpu_1x_a10", description := "", priceCentsHourly := 60 }
  hostname := ""
  jupyterToken := ""
  jupyterUrl := ""

/-- Concrete SSH key state whose remote object is already gone. -/
def goneKeyState : SSHKeyResourceModel where
  Name := .value "one"
  PublicKey := .null
  PrivateKey := .null
  Id := .value "sshkey-999"

/-- Concrete decoded not-found error envelope. -/
def notFoundErr : APIError where
  code := "global/object-does-not-exist"
  message := "not found"
  suggestion := none

/-- Concrete remote SSH key with an id other than sshkey-999. -/
def otherKey : SSHKey where
  ID := "sshkey-1"
  Name := "a"
  PublicKey := "pub-a"
  PrivateKey := ""

/-- Concrete remote SSH key carrying generated private key material. -/
def genKey : SSHKey where
  ID := "sshkey-7"
  Name := "one"
  PublicKey := "pub-one"
  PrivateKey := "PRIVATE MATERIAL"

/-- Concrete remote SSH key without private key material. -/
def plainKey : SSHKey where
  ID := "sshkey-8"
  Name := "one"
  PublicKey := "pub-one"
  PrivateKey := ""

/-- Concrete SSH key state pointing at genKey. -/
def genKeyState : SSHKeyResourceModel where
  Name := .value "one"
  PublicKey := .null
  PrivateKey := .null
  Id := .value "sshkey-7"

/-- First of two concrete SSH keys sharing the id k1. -/
def dupA : SSHKey where
  ID := "k1"
  Name := "first"
  PublicKey := "p1"
  PrivateKey := ""

/-- Second of two concrete SSH keys sharing the id k1. -/
def dupB : SSHKey where
  ID := "k1"
  Name := "second"
  PublicKey := "p2"
  PrivateKey := ""

/-- findKey misses exactly when no record of the list carries the id. -/
lemma findKey_eq_none_iff (keys : List SSHKey) (i : String) :
    findKey keys i = none ↔ ∀ k ∈ keys, k.ID ≠ i := by
  induction keys with
  | nil => simp [findKey]
  | cons k ks ih =>
      by_cases h : k.ID = i
      · simp [findKey, h]
      · simp [findKey, h, ih]

/-- findKey returns the head of the first match in list order. -/
lemma findKey_append_first (pre : List SSHKey) (i : String)
    (hpre : ∀ k2 ∈ pre, k2.ID ≠ i) (k : SSHKey) (post : List SSHKey)
    (hk : k.ID = i) : findKey (pre ++ k :: post) i = some k := by
  induction pre with
  | nil => simp [findKey, hk]
  | cons p ps ih =>
      have hp : p.ID ≠ i := hpre p (by simp)
      have hps : ∀ k2 ∈ ps, k2.ID ≠ i := fun k2 hk2 => hpre k2 (by simp [hk2])
      simp [findKey, hp, ih hps]

/-- C1 counterexample: with an empty SSH key name list (size 0, not 1) and
unset display name, instance Create raises no validation error: the launch
request is issued and, on a well-formed response, Create succeeds. -/
theorem C1_counterexample :
    zeroKeyPlan.SshKeyNames.ElementsAs.length ≠ 1 ∧
    (InstanceResource.Create zeroKeyPlan (.response 200 (.error "eof") (.ok ["i-9"]))).request =
      some (InstanceResource.createRequest zeroKeyPlan) ∧
    (InstanceResource.Create zeroKeyPlan (.response 200 (.error "eof") (.ok ["i-9"]))).outcome =
      .success { zeroKeyPlan with IP := .null, Status := .null, Id := .value "i-9" } := by
  decide

/-- C1 amended: instance Create performs no local validation of the SSH
key name count. Whenever the display name is unset (so the nil pointer
panic is not reached), the provisioning request is issued for every plan,
carrying exactly the SSH key names present, whatever their number. -/
theorem C1_no_ssh_key_count_validation (data : InstanceResourceModel)
    (http : Http (List String)) (h : data.Name.IsNull = true) :
    (InstanceResource.Create data http).request = some (InstanceResource.createRequest data) ∧
    (InstanceResource.createRequest data).SSHKeyNames = data.SshKeyNames.ElementsAs := by
  constructor
  · simp [InstanceResource.Create, h]
  · rfl

/-- C1 witness: the amended theorem applied to a concrete two-key plan. -/
theorem C1_witness :
    twoKeyPlan.Name.IsNull = true ∧
    (InstanceResource.Create twoKeyPlan (.transportError "x")).request =
      some (InstanceResource.createRequest twoKeyPlan) :=
  ⟨by decide, (C1_no_ssh_key_count_validation twoKeyPlan (.transportError "x") (by decide)).1⟩

/-- C2 counterexample: SSH key Delete against a remote that reports 404
with a decodable error envelope surfaces a client error, not success. -/
theorem C2_counterexample :
    SSHKeyResource.Delete goneKeyState (.response 404 (.ok notFoundErr) (.ok ())) =
      .error "client error" "not found" ∧
    SSHKeyResource.Delete goneKeyState (.response 404 (.ok notFoundErr) (.ok ())) ≠
      .success := by
  decide

/-- C2 amended: only instance Delete treats a 404 as idempotent success,
and even there only when the body decodes as the delete response envelope
(a decode failure is a json error); SSH key Delete treats 404 like any
other non-200 status and surfaces the decoded remote error message. -/
theorem C2_delete_not_found :
    (∀ (d : InstanceResourceModel) (e : Except String APIError) (insts : List Instance),
        InstanceResource.Delete d (.response 404 e (.ok insts)) = .success) ∧
    (∀ (d : InstanceResourceModel) (e : Except String APIError) (msg : String),
        InstanceResource.Delete d (.response 404 e (.error msg)) = .error "json error" msg) ∧
    (∀ (d : SSHKeyResourceModel) (err : APIError) (b : Except String Unit),
        SSHKeyResource.Delete d (.response 404 (.ok err) b) = .error "client error" err.message) := by
  refine ⟨fun d e insts => ?_, fun d e msg => ?_, fun d err b => ?_⟩
  · simp [InstanceResource.Delete]
  · simp [InstanceResource.Delete]
  · simp [SSHKeyResource.Delete]

/-- C3 evaluation at the failing input: instance Read with a found remote
object leaves ip and status at their prior state values even though the
remote reports different ones; only ssh key names, instance type name and
region name are refreshed. The refresh lines for ip and status are
commented out in the source while the acceptance test expects ip and
status to be populated after import plus Read. -/
theorem C3_read_keeps_stale_ip_status :
    InstanceResource.Read staleInstanceState (.response 200 (.error "eof") (.ok remoteInstance)) =
      .success staleInstanceState ∧
    staleInstanceState.IP = .value "1.2.3.4" ∧ remoteInstance.ip = "5.6.7.8" ∧
    staleInstanceState.Status = .value "active" ∧ remoteInstance.status = "booting" := by
  decide

/-- C4: whenever the optional display name of the plan is set (not null),
instance Create hits the nil string pointer write and panics with no
request issued; hence Create can only complete when the name is unset. -/
theorem C4_create_panics_on_set_name (data : InstanceResourceModel)
    (http : Http (List String)) (h : data.Name.IsNull = false) :
    InstanceResource.Create data http = { request := none, outcome := .panic } := by
  simp [InstanceResource.Create, h]

/-- C4 witness: the panic theorem applied to a concrete named plan. -/
theorem C4_witness :
    namedPlan.Name.IsNull = false ∧
    InstanceResource.Create namedPlan (.transportError "unsent") =
      { request := none, outcome := .panic } :=
  ⟨by decide, C4_create_panics_on_set_name namedPlan (.transportError "unsent") (by decide)⟩

/-- C5: instance Read maps a 404 status to removal of the local record
before decoding any body, and SSH key Read maps a 200 list in which
findKey does not locate the stored id to removal; neither is an error. -/
theorem C5_read_absent :
    (∀ (d : InstanceResourceModel) (e : Except String APIError) (b : Except String Instance),
        InstanceResource.Read d (.response 404 e b) = .removed) ∧
    (∀ (d : SSHKeyResourceModel) (e : Except String APIError) (keys : List SSHKey),
        findKey keys d.Id.ValueString = none →
        SSHKeyResource.Read d (.response 200 e (.ok keys)) = .removed) := by
  constructor
  · intro d e b
    simp [InstanceResource.Read]
  · intro d e keys h
    simp [SSHKeyResource.Read, h]

/-- C5 witness: the absence theorem applied to a concrete state and a
concrete key list missing its id. -/
theorem C5_witness :
    findKey [otherKey] goneKeyState.Id.ValueString = none ∧
    SSHKeyResource.Read goneKeyState (.response 200 (.error "eof") (.ok [otherKey])) =
      .removed :=
  ⟨by decide, C5_read_absent.2 goneKeyState (.error "eof") [otherKey] (by decide)⟩

/-- C6: with a decoded 200 creation response, instance Create fails with
the response cardinality error exactly when the returned id list has
length other than 1. -/
theorem C6_response_cardinality (data : InstanceResourceModel)
    (e : Except String APIError) (ids : List String) (h : data.Name.IsNull = true) :
    ((InstanceResource.Create data (.response 200 e (.ok ids))).outcome =
        .error "resp error" ("expected 1 response got " ++ toString ids.length) ↔
      ids.length ≠ 1) := by
  by_cases hl : ids.length = 1
  · simp [InstanceResource.Create, h, hl]
  · simp [InstanceResource.Create, h, hl]

/-- C6 witness: the cardinality theorem applied to a concrete two-id
response. -/
theorem C6_witness :
    exampleInstancePlan.Name.IsNull = true ∧
    ((InstanceResource.Create exampleInstancePlan
          (.response 200 (.error "eof") (.ok ["i-1", "i-2"]))).outcome =
        .error "resp error"
          ("expected 1 response got " ++ toString (["i-1", "i-2"] : List String).length) ↔
      (["i-1", "i-2"] : List String).length ≠ 1) :=
  ⟨by decide, C6_response_cardinality exampleInstancePlan (.error "eof") ["i-1", "i-2"] (by decide)⟩

/-- C7: on SSH key Create and Read success, the private key field of the
resulting record is the returned material when that material is a
non-empty string and null otherwise, and is never the empty-string
value. -/
theorem C7_private_key_population :
    (∀ (d : SSHKeyResourceModel) (e : Except String APIError) (k : SSHKey),
        ∃ st, (SSHKeyResource.Create d (.response 200 e (.ok k))).outcome = .success st ∧
          st.PrivateKey = (if k.PrivateKey ≠ "" then .value k.PrivateKey else .null) ∧
          st.PrivateKey ≠ .value "") ∧
    (∀ (d : SSHKeyResourceModel) (e : Except String APIError) (keys : List SSHKey) (k : SSHKey),
        findKey keys d.Id.ValueString = some k →
        ∃ st, SSHKeyResource.Read d (.response 200 e (.ok keys)) = .success st ∧
          st.PrivateKey = (if k.PrivateKey ≠ "" then .value k.PrivateKey else .null) ∧
          st.PrivateKey ≠ .value "") := by
  constructor
  · intro d e k
    refine ⟨{ d with
                Id := .value k.ID
                Name := .value k.Name
                PrivateKey := if k.PrivateKey ≠ "" then .value k.PrivateKey else .null },
            ?_, rfl, ?_⟩
    · simp [SSHKeyResource.Create]
    · by_cases hk : k.PrivateKey = "" <;> simp [hk]
  · intro d e keys k h
    refine ⟨{ d with
                Id := .value k.ID
                Name := .value k.Name
                PublicKey := .value k.PublicKey
                PrivateKey := if k.PrivateKey ≠ "" then .value k.PrivateKey else .null },
            ?_, rfl, ?_⟩
    · simp [SSHKeyResource.Read, h]
    · by_cases hk : k.PrivateKey = "" <;> simp [hk]

/-- C7 witness: the population theorem applied to a concrete list holding
a key with generated private material. -/
theorem C7_witness :
    findKey [genKey] genKeyState.Id.ValueString = some genKey ∧
    ∃ st, SSHKeyResource.Read genKeyState (.response 200 (.error "eof") (.ok [genKey])) =
        .success st ∧
      st.PrivateKey = (if genKey.PrivateKey ≠ "" then .value genKey.PrivateKey else .null) ∧
      st.PrivateKey ≠ .value "" :=
  ⟨by decide, C7_private_key_population.2 genKeyState (.error "eof") [genKey] genKey (by decide)⟩

/-- C8: on a decoded 200 creation response with exactly one id, instance
Create issues the built request, clears ip and status to null (the
pending, not yet known sentinel), binds the id to the single returned
identifier, and leaves every desired field of the record unchanged. -/
theorem C8_create_success_state (data : InstanceResourceModel)
    (e : Except String APIError) (oneId : String) (h : data.Name.IsNull = true) :
    InstanceResource.Create data (.response 200 e (.ok [oneId])) =
      { request := some (InstanceResource.createRequest data),
        outcome := .success { data with IP := .null, Status := .null, Id := .value oneId } } := by
  simp [InstanceResource.Create, h]

/-- C8 witness: the success-state theorem applied to the spec scenario
plan and the id i-123. -/
theorem C8_witness :
    exampleInstancePlan.Name.IsNull = true ∧
    InstanceResource.Create exampleInstancePlan (.response 200 (.error "eof") (.ok ["i-123"])) =
      { request := some (InstanceResource.createRequest exampleInstancePlan),
        outcome := .success { exampleInstancePlan with
          IP := .null, Status := .null, Id := .value "i-123" } } :=
  ⟨by decide, C8_create_success_state exampleInstancePlan (.error "eof") "i-123" (by decide)⟩

/-- C9 evaluation: SSH key Update re-persists the incoming plan unchanged
with no remote call, but instance Update reads the plan into the resource
struct instead of the model struct, so its Plan.Get always fails with a
conversion error and no state is ever persisted. -/
theorem C9_update_behaviour :
    (∀ plan : SSHKeyResourceModel, SSHKeyResource.Update plan = .success plan) ∧
    (∀ plan : InstanceResourceModel,
        InstanceResource.Update plan =
          .error "Value Conversion Error"
            "mismatch between struct and object: the object defines fields not found in the struct") :=
  ⟨fun _ => rfl, fun _ => rfl⟩

/-- C10: the matcher findKey signals absence exactly when no record of the
list carries the target id, and otherwise returns the first record in list
order whose id equals the target, also when several records share it. -/
theorem C10_findKey_first_match (keys : List SSHKey) (i : String) :
    (findKey keys i = none ↔ ∀ k ∈ keys, k.ID ≠ i) ∧
    (∀ (pre : List SSHKey) (k : SSHKey) (post : List SSHKey),
        keys = pre ++ k :: post → k.ID = i → (∀ k2 ∈ pre, k2.ID ≠ i) →
        findKey keys i = some k) := by
  constructor
  · exact findKey_eq_none_iff keys i
  · intro pre k post hkeys hk hpre
    rw [hkeys]
    exact findKey_append_first pre i hpre k post hk

/-- C10 witness: the matcher theorem applied to a concrete list of two
records sharing one id; the first wins. -/
theorem C10_witness :
    ([dupA, dupB] : List SSHKey) = [] ++ dupA :: [dupB] ∧ dupA.ID = "k1" ∧
    findKey [dupA, dupB] "k1" = some dupA :=
  ⟨rfl, rfl,
    (C10_findKey_first_match [dupA, dupB] "k1").2 [] dupA [dupB] rfl rfl (by simp)⟩
